import Mathlib

/-!
Verification development for the floor-plan analysis and furniture-recommendation
pipeline of `floor_plan_analyzer.py`.

The computer-vision library primitives (`cv2.findContours`, `cv2.boundingRect`,
`cv2.moments`, `cv2.contourArea`, `cv2.HoughLinesP`, image decoding/encoding) are
treated as the environment: their outputs — contour measurements, detected line
segments, decode/write outcomes — are inputs to the embedded functions.  All of
the repository's own logic downstream of those calls (filtering, classification,
recommendation, result assembly, temp-file handling, error propagation) is
embedded faithfully.

Numeric conventions: Python floats over the values occurring here are embedded
as `ℚ`; Python `int(x)` (truncation toward zero) is `pyInt`; Python `//` on
nonnegative ints is `Nat` division.  In `detect_doors_windows` the source
compares `np.sqrt(lengthSq)` (an exact integer under the square root) against
the integer thresholds 30, 100 and 60; since `sqrt` is strictly monotone and
the float `sqrt` of a perfect square is exact while a non-square integer of
this magnitude never rounds to an integer, each comparison is equivalent to
comparing `lengthSq` with the squared threshold, which is how it is embedded.
-/

/-- Python `int(x)`: truncation toward zero (floor for nonnegative values,
ceiling for negative ones). -/
def pyInt (q : ℚ) : ℤ :=
  if 0 ≤ q then ⌊q⌋ else ⌈q⌉

/-- Measurements the CV library reports for one connected component
(`cv2.contourArea`, `cv2.boundingRect`, `cv2.moments`).  `boundingRect`
coordinates are nonnegative integers. -/
structure Contour where
  area : ℚ
  x : ℕ
  y : ℕ
  w : ℕ
  h : ℕ
  m00 : ℚ
  m10 : ℚ
  m01 : ℚ
  deriving DecidableEq

/-- An `{x, y}` integer point. -/
structure Point where
  x : ℤ
  y : ℤ
  deriving DecidableEq

/-- An `{x, y, width, height}` integer rectangle. -/
structure BoundingBox where
  x : ℤ
  y : ℤ
  width : ℤ
  height : ℤ
  deriving DecidableEq

/-- One detected room, as built by `FloorPlanAnalyzer.detect_rooms`. -/
structure Room where
  id : ℕ
  type : String
  area_pixels : ℤ
  bounding_box : BoundingBox
  centroid : Point
  aspect_ratio : ℚ
  contour : Contour
  deriving DecidableEq

/-- `FloorPlanAnalyzer._estimate_room_type`: the nested `if` cascade on
`(area, aspect_ratio)` from the source. -/
def estimate_room_type (area : ℚ) (aspect_ratio : ℚ) : String :=
  if area > 100000 then
    if aspect_ratio > 2 then "living_room" else "master_bedroom"
  else if area > 50000 then
    if aspect_ratio > 1.5 then "dining_room" else "bedroom"
  else if area > 20000 then
    if aspect_ratio < 1.2 then "bathroom" else "kitchen"
  else
    "storage_or_hallway"

/-- Modelled from the spec's decision table (section 4.2 step 5): the
priority-ordered rows, resolved to the first matching band.  Used only to be
compared against `estimate_room_type`, which is the source's code. -/
def spec_room_type_table (area : ℚ) (aspect_ratio : ℚ) : String :=
  if area > 100000 ∧ aspect_ratio > 2 then "living_room"
  else if area > 100000 then "master_bedroom"
  else if area > 50000 ∧ aspect_ratio > 1.5 then "dining_room"
  else if area > 50000 then "bedroom"
  else if area > 20000 ∧ aspect_ratio < 1.2 then "bathroom"
  else if area > 20000 then "kitchen"
  else "storage_or_hallway"

/-- The room built for contour `c` at enumeration index `i` in
`FloorPlanAnalyzer.detect_rooms`: bounding box, centroid (image-moment based,
falling back to the bounding-box midpoint when `m00 = 0`), aspect ratio
`max(w,h)/min(w,h)`, and heuristic type. -/
def mkRoom (i : ℕ) (c : Contour) : Room :=
  let centroid : Point :=
    if c.m00 ≠ 0 then
      { x := pyInt (c.m10 / c.m00), y := pyInt (c.m01 / c.m00) }
    else
      { x := (c.x + c.w / 2 : ℕ), y := (c.y + c.h / 2 : ℕ) }
  let aspect_ratio : ℚ := (max c.w c.h : ℚ) / (min c.w c.h : ℚ)
  { id := i
    type := estimate_room_type c.area aspect_ratio
    area_pixels := pyInt c.area
    bounding_box := { x := (c.x : ℤ), y := (c.y : ℤ), width := (c.w : ℤ), height := (c.h : ℤ) }
    centroid := centroid
    aspect_ratio := aspect_ratio
    contour := c }

/-- The `for i, contour in enumerate(contours)` loop of `detect_rooms`:
contours with `area < min_room_area` are skipped, the rest are appended with
their enumeration index as `id`. -/
def detect_roomsAux (min_room_area : ℤ) (i : ℕ) : List Contour → List Room
  | [] => []
  | c :: cs =>
      if c.area < (min_room_area : ℚ) then
        detect_roomsAux min_room_area (i + 1) cs
      else
        mkRoom i c :: detect_roomsAux min_room_area (i + 1) cs

/-- `FloorPlanAnalyzer.detect_rooms`, with the contour list reported by the CV
layer as input. -/
def detect_rooms (min_room_area : ℤ) (contours : List Contour) : List Room :=
  detect_roomsAux min_room_area 0 contours

/-- One line segment reported by `cv2.HoughLinesP` (integer endpoint
coordinates). -/
structure Seg where
  x1 : ℤ
  y1 : ℤ
  x2 : ℤ
  y2 : ℤ
  deriving DecidableEq

/-- Squared Euclidean length `(x2-x1)^2 + (y2-y1)^2` of a segment; the source
compares `np.sqrt` of this value against integer thresholds, which is
equivalent to comparing this value against the squared thresholds. -/
def lengthSq (s : Seg) : ℤ :=
  (s.x2 - s.x1) ^ 2 + (s.y2 - s.y1) ^ 2

/-- The source's keep condition `30 < length < 100`, expressed on the squared
length. -/
def segKept (s : Seg) : Bool :=
  decide (900 < lengthSq s ∧ lengthSq s < 10000)

/-- The source's window condition `length < 60` for kept segments, expressed
on the squared length. -/
def segWindow (s : Seg) : Bool :=
  decide (lengthSq s < 3600)

/-- The two output lists of `FloorPlanAnalyzer.detect_doors_windows`. -/
structure Openings where
  doors : List Seg
  windows : List Seg
  deriving DecidableEq

/-- `FloorPlanAnalyzer.detect_doors_windows`, with the `HoughLinesP` result as
input (`none` embeds `lines is None`).  The loop appends each kept segment with
`length < 60` to `windows` and every other kept segment to `doors`, preserving
order. -/
def detect_doors_windows (lines : Option (List Seg)) : Openings :=
  match lines with
  | none => { doors := [], windows := [] }
  | some ls =>
      { doors := ls.filter (fun s => segKept s && !segWindow s)
        windows := ls.filter (fun s => segKept s && segWindow s) }

/-- One furniture recommendation `{item, priority}`. -/
structure FurnRec where
  item : String
  priority : String
  deriving DecidableEq

/-- The static per-room-type catalog literal from
`FloorPlanAnalyzer.recommend_furniture`, embedded as the dictionary lookup
(`recommendations.get(room_type)` semantics: `none` for unknown keys). -/
def recommendations (room_type : String) : Option (List FurnRec) :=
  if room_type = "bedroom" then some
    [⟨"bed", "essential"⟩, ⟨"nightstand", "recommended"⟩, ⟨"wardrobe", "essential"⟩,
     ⟨"dresser", "optional"⟩, ⟨"chair", "optional"⟩]
  else if room_type = "master_bedroom" then some
    [⟨"king_bed", "essential"⟩, ⟨"nightstands_pair", "essential"⟩, ⟨"wardrobe", "essential"⟩,
     ⟨"dresser", "recommended"⟩, ⟨"seating_area", "optional"⟩]
  else if room_type = "living_room" then some
    [⟨"sofa", "essential"⟩, ⟨"coffee_table", "essential"⟩, ⟨"tv_stand", "recommended"⟩,
     ⟨"armchair", "optional"⟩, ⟨"bookshelf", "optional"⟩]
  else if room_type = "dining_room" then some
    [⟨"dining_table", "essential"⟩, ⟨"dining_chairs", "essential"⟩,
     ⟨"buffet", "optional"⟩, ⟨"china_cabinet", "optional"⟩]
  else if room_type = "kitchen" then some
    [⟨"dining_table_small", "recommended"⟩, ⟨"bar_stools", "optional"⟩,
     ⟨"kitchen_island", "optional"⟩]
  else if room_type = "bathroom" then some
    [⟨"vanity", "essential"⟩, ⟨"storage_cabinet", "recommended"⟩,
     ⟨"towel_rack", "essential"⟩]
  else none

/-- The catalog's known room types (the dictionary's keys). -/
def knownRoomTypes : List String :=
  ["bedroom", "master_bedroom", "living_room", "dining_room", "kitchen", "bathroom"]

/-- The three-tier area filter at the end of `recommend_furniture`: essentials
only below 30000, essentials plus recommended below 60000, everything
otherwise. -/
def area_filter (area : ℤ) (base : List FurnRec) : List FurnRec :=
  if area < 30000 then
    base.filter (fun r => r.priority == "essential")
  else if area < 60000 then
    base.filter (fun r => r.priority == "essential" || r.priority == "recommended")
  else
    base

/-- `FloorPlanAnalyzer.recommend_furniture`.  The source takes the room record
and reads exactly `room["type"]` and `room["area_pixels"]`, which are the two
arguments here: catalog lookup with the single-item generic fallback, then the
three-tier area filter. -/
def recommend_furniture (room_type : String) (area : ℤ) : List FurnRec :=
  area_filter area ((recommendations room_type).getD [⟨"general_storage", "recommended"⟩])

/-- One serialized room of the returned `results["rooms"]` list.
`furniture_recommendations` is `none` when the dict has no such key (which is
how `analyze_floor_plan` builds it) and `some l` once
`analyze_floor_plan_bytes` attaches a list. -/
structure RoomOut where
  id : ℕ
  type : String
  area_pixels : ℤ
  bounding_box : BoundingBox
  centroid : Point
  aspect_ratio : ℚ
  furniture_recommendations : Option (List FurnRec)
  deriving DecidableEq

/-- The room serialization inside `analyze_floor_plan`'s `results` literal:
all fields except `contour`, and no `furniture_recommendations` key. -/
def roomOut (r : Room) : RoomOut :=
  { id := r.id
    type := r.type
    area_pixels := r.area_pixels
    bounding_box := r.bounding_box
    centroid := r.centroid
    aspect_ratio := r.aspect_ratio
    furniture_recommendations := none }

/-- The aggregate `results` dictionary returned by `analyze_floor_plan`. -/
structure AnalysisResult where
  total_rooms : ℕ
  total_area_pixels : ℤ
  rooms : List RoomOut
  doors : List Seg
  windows : List Seg
  wall_count : ℕ
  deriving DecidableEq

/-- The annotated raster produced by `_visualize_analysis`: a copy of the
original image (identified abstractly by `base`) with the room contours,
centroids and labels, door lines and window lines drawn on the copy.  The
original image and the room/opening records are only read. -/
structure AnnImage where
  base : ℕ
  contoursDrawn : List Contour
  centroidsDrawn : List Point
  labels : List (String × Point)
  doorLines : List Seg
  windowLines : List Seg
  deriving DecidableEq

/-- `FloorPlanAnalyzer._visualize_analysis` up to (but not including) the
`cv2.imwrite` call: pure construction of the annotated copy. -/
def visualize_analysis (image : ℕ) (rooms : List Room) (openings : Openings) : AnnImage :=
  { base := image
    contoursDrawn := rooms.map (·.contour)
    centroidsDrawn := rooms.map (·.centroid)
    labels := rooms.map (fun r =>
      (r.type ++ " (" ++ toString r.id ++ ")",
       { x := r.centroid.x - 50, y := r.centroid.y - 10 }))
    doorLines := openings.doors
    windowLines := openings.windows }

/-- Outcome of a `cv2.imwrite` call: success, a `False` return value (which
the source never inspects), or a raised exception. -/
inductive WriteOutcome where
  | ok : WriteOutcome
  | retFalse : WriteOutcome
  | raiseErr : WriteOutcome
  deriving DecidableEq

/-- Exceptions that can escape the embedded pipeline. -/
inductive AnalysisError where
  | valueError : AnalysisError
  | tempWriteRaised : AnalysisError
  | visWriteRaised : AnalysisError
  deriving DecidableEq

/-- The environment of one loaded image: the image handle and the outputs of
the three CV detection calls run on its preprocessed binary mask
(`detect_walls` contours, the room-detection contours, `HoughLinesP` lines). -/
structure CVData where
  image : ℕ
  walls : List Contour
  contours : List Contour
  lines : Option (List Seg)
  deriving DecidableEq

/-- `FloorPlanAnalyzer.analyze_floor_plan` after the image is loaded: detect
elements, optionally render and write the visualization (an `imwrite` that
raises propagates, since nothing catches it; a `False` return is ignored), and
assemble the `results` dictionary.  The second component records the file
written (path and content) when the write succeeded. -/
def analyze_floor_plan (min_room_area : ℤ) (cv : CVData)
    (output_path : Option String) (write : WriteOutcome) :
    Except AnalysisError (AnalysisResult × Option (String × AnnImage)) :=
  let rooms := detect_rooms min_room_area cv.contours
  let openings := detect_doors_windows cv.lines
  let total_area := (rooms.map (·.area_pixels)).sum
  let results : AnalysisResult :=
    { total_rooms := rooms.length
      total_area_pixels := total_area
      rooms := rooms.map roomOut
      doors := openings.doors
      windows := openings.windows
      wall_count := cv.walls.length }
  match output_path with
  | none => .ok (results, none)
  | some p =>
      match write with
      | .raiseErr => .error .visWriteRaised
      | .retFalse => .ok (results, none)
      | .ok => .ok (results, some (p, visualize_analysis cv.image rooms openings))

/-- The environment of one `analyze_floor_plan_bytes` call: whether
`cv2.imdecode` succeeds, the CV outputs over the directly decoded image
(used for the module-level `detect_rooms` pass), the CV outputs over the image
re-loaded from the temporary scratch file (used by the inner
`analyze_floor_plan`), and the outcomes of the scratch `imwrite`, the
visualization write, and the final `unlink`. -/
structure BytesEnv where
  decoded : Bool
  cvDirect : CVData
  cvReload : CVData
  tempWriteRaises : Bool
  visWrite : WriteOutcome
  unlinkRaises : Bool
  deriving DecidableEq

/-- The per-room attachment loop of `analyze_floor_plan_bytes`: find the first
detected room with the same `id`; when found, set
`furniture_recommendations` from its `type` and `area_pixels`. -/
def attach_recommendations (detected : List Room) (room : RoomOut) : RoomOut :=
  match detected.find? (fun r => r.id == room.id) with
  | some matching =>
      { room with
          furniture_recommendations := some (recommend_furniture matching.type matching.area_pixels) }
  | none => room

/-- `analyze_floor_plan_bytes`.  The first component is the call's result
(value returned or exception propagated); the second is `true` exactly when the
temporary scratch file still exists after the call: the file is created before
the `try`, so a raising scratch `imwrite` leaks it, and the `finally` block
swallows any `unlink` failure (`except Exception: pass`), leaking it as well.
A decode failure raises before any file is created.  The inner analysis uses a
fresh `FloorPlanAnalyzer()` with the default `min_room_area = 5000`. -/
def analyze_floor_plan_bytes (env : BytesEnv) (output_path : Option String) :
    Except AnalysisError (AnalysisResult × Option (String × AnnImage)) × Bool :=
  if ¬env.decoded then
    (.error .valueError, false)
  else if env.tempWriteRaises then
    (.error .tempWriteRaised, true)
  else
    let detected_rooms := detect_rooms 5000 env.cvDirect.contours
    let body := (analyze_floor_plan 5000 env.cvReload output_path env.visWrite).map
      (fun rw =>
        ({ rw.1 with rooms := rw.1.rooms.map (attach_recommendations detected_rooms) },
         rw.2))
    (body, env.unlinkRaises)

theorem le_pyInt {z : ℤ} {q : ℚ} (h : (z : ℚ) ≤ q) : z ≤ pyInt q := by
  unfold pyInt
  split_ifs with h0
  · exact Int.le_floor.mpr h
  · exact_mod_cast le_trans h (Int.le_ceil q)

theorem pyInt_le {z : ℤ} {q : ℚ} (h : q ≤ (z : ℚ)) : pyInt q ≤ z := by
  unfold pyInt
  split_ifs with h0
  · exact_mod_cast le_trans (Int.floor_le q) h
  · exact Int.ceil_le.mpr h

/-- C4: for every detected region passed to room-type classification, the
assigned room type equals the first matching row of the priority-ordered
decision table on `(area, aspect_ratio)`: area > 100000 with ratio > 2.0 gives
living_room, area > 100000 otherwise master_bedroom, area > 50000 with ratio >
1.5 dining_room, area > 50000 otherwise bedroom, area > 20000 with ratio < 1.2
bathroom, area > 20000 otherwise kitchen, and otherwise storage_or_hallway. -/
theorem room_type_matches_decision_table (area aspect_ratio : ℚ) :
    estimate_room_type area aspect_ratio = spec_room_type_table area aspect_ratio := by
  unfold estimate_room_type spec_room_type_table
  split_ifs <;> first | rfl | tauto

/-- C6: for every room type, furniture-recommendation filtering is monotonic
in area: the recommendation set for any area ≥ 60000 is a superset of the set
for any area in [30000, 60000), which is a superset of the set for any area
below 30000. -/
theorem recommend_furniture_monotone (rt : String) (aLarge aMid aSmall : ℤ)
    (h1 : 60000 ≤ aLarge) (h2 : 30000 ≤ aMid) (h3 : aMid < 60000) (h4 : aSmall < 30000) :
    recommend_furniture rt aMid ⊆ recommend_furniture rt aLarge ∧
    recommend_furniture rt aSmall ⊆ recommend_furniture rt aMid := by
  unfold recommend_furniture area_filter
  rw [if_neg (by omega : ¬aLarge < 30000), if_neg (by omega : ¬aLarge < 60000),
    if_neg (by omega : ¬aMid < 30000), if_pos h3, if_pos h4]
  constructor
  · exact List.filter_subset' _
  · intro x hx
    simp only [List.mem_filter] at hx ⊢
    exact ⟨hx.1, by simp [hx.2]⟩

theorem recommend_furniture_monotone_witness :
    (60000 ≤ (70000 : ℤ) ∧ 30000 ≤ (40000 : ℤ) ∧ (40000 : ℤ) < 60000 ∧ (1000 : ℤ) < 30000) ∧
    (recommend_furniture "bedroom" 40000 ⊆ recommend_furniture "bedroom" 70000 ∧
     recommend_furniture "bedroom" 1000 ⊆ recommend_furniture "bedroom" 40000) :=
  ⟨by decide,
   recommend_furniture_monotone "bedroom" 70000 40000 1000
     (by decide) (by decide) (by decide) (by decide)⟩

/-- C7: for every room whose type is not one of the catalog's known types,
`recommend_furniture` never raises: it uses the single-item generic fallback
list (item `general_storage`, priority `recommended`) and applies the same
three-tier area filter to it, for every area value. -/
theorem recommend_furniture_unknown_type (rt : String) (area : ℤ)
    (h : rt ∉ knownRoomTypes) :
    recommend_furniture rt area = area_filter area [⟨"general_storage", "recommended"⟩] := by
  have hn : recommendations rt = none := by
    simp only [knownRoomTypes, List.mem_cons, List.not_mem_nil, or_false, not_or] at h
    unfold recommendations
    rw [if_neg h.1, if_neg h.2.1, if_neg h.2.2.1, if_neg h.2.2.2.1,
      if_neg h.2.2.2.2.1, if_neg h.2.2.2.2.2]
  unfold recommend_furniture
  rw [hn]
  rfl

theorem recommend_furniture_unknown_type_witness :
    ("closet" ∉ knownRoomTypes) ∧
    recommend_furniture "closet" 10000 = area_filter 10000 [⟨"general_storage", "recommended"⟩] :=
  ⟨by decide, recommend_furniture_unknown_type "closet" 10000 (by decide)⟩

theorem thirty_lt_sqrt_iff (s : Seg) :
    (30 : ℝ) < Real.sqrt (lengthSq s) ↔ 900 < lengthSq s := by
  rw [Real.lt_sqrt (by norm_num : (0:ℝ) ≤ 30)]
  have h : ((30:ℝ))^2 = ((900:ℤ) : ℝ) := by norm_num
  rw [h, Int.cast_lt]

theorem sqrt_lt_hundred_iff (s : Seg) :
    Real.sqrt (lengthSq s) < (100 : ℝ) ↔ lengthSq s < 10000 := by
  rw [Real.sqrt_lt' (by norm_num : (0:ℝ) < 100)]
  have h : ((100:ℝ))^2 = ((10000:ℤ) : ℝ) := by norm_num
  rw [h, Int.cast_lt]

theorem sqrt_lt_sixty_iff (s : Seg) :
    Real.sqrt (lengthSq s) < (60 : ℝ) ↔ lengthSq s < 3600 := by
  rw [Real.sqrt_lt' (by norm_num : (0:ℝ) < 60)]
  have h : ((60:ℝ))^2 = ((3600:ℤ) : ℝ) := by norm_num
  rw [h, Int.cast_lt]

theorem mem_doors_iff (ls : List Seg) (s : Seg) :
    s ∈ (detect_doors_windows (some ls)).doors ↔
      s ∈ ls ∧ (900 < lengthSq s ∧ lengthSq s < 10000) ∧ ¬lengthSq s < 3600 := by
  simp [detect_doors_windows, List.mem_filter, segKept, segWindow, and_assoc]

theorem mem_windows_iff (ls : List Seg) (s : Seg) :
    s ∈ (detect_doors_windows (some ls)).windows ↔
      s ∈ ls ∧ (900 < lengthSq s ∧ lengthSq s < 10000) ∧ lengthSq s < 3600 := by
  simp [detect_doors_windows, List.mem_filter, segKept, segWindow, and_assoc]

/-- C5: for every line segment produced by opening detection, a segment whose
Euclidean length lies outside the open band (30, 100) appears in neither the
doors nor the windows list; every kept segment of length < 60 appears in
windows and not in doors, every kept segment of length in [60, 100) appears in
doors and not in windows; no segment lies in both lists; and when no lines are
detected at all (`lines is None`), both lists are empty and no error is
raised. -/
theorem opening_length_classification :
    (∀ ls : List Seg, ∀ s : Seg,
        ¬((30 : ℝ) < Real.sqrt (lengthSq s) ∧ Real.sqrt (lengthSq s) < 100) →
        s ∉ (detect_doors_windows (some ls)).doors ∧
        s ∉ (detect_doors_windows (some ls)).windows) ∧
    (∀ ls : List Seg, ∀ s : Seg, s ∈ ls →
        (30 : ℝ) < Real.sqrt (lengthSq s) → Real.sqrt (lengthSq s) < 100 →
        ((Real.sqrt (lengthSq s) < 60 →
            s ∈ (detect_doors_windows (some ls)).windows ∧
            s ∉ (detect_doors_windows (some ls)).doors) ∧
         ((60 : ℝ) ≤ Real.sqrt (lengthSq s) →
            s ∈ (detect_doors_windows (some ls)).doors ∧
            s ∉ (detect_doors_windows (some ls)).windows))) ∧
    (∀ ls : List Seg, ∀ s : Seg,
        ¬(s ∈ (detect_doors_windows (some ls)).doors ∧
          s ∈ (detect_doors_windows (some ls)).windows)) ∧
    detect_doors_windows none = { doors := [], windows := [] } := by
  refine ⟨?_, ?_, ?_, rfl⟩
  · intro ls s hband
    rw [thirty_lt_sqrt_iff, sqrt_lt_hundred_iff] at hband
    constructor
    · rw [mem_doors_iff]
      tauto
    · rw [mem_windows_iff]
      tauto
  · intro ls s hmem h30 h100
    rw [thirty_lt_sqrt_iff] at h30
    rw [sqrt_lt_hundred_iff] at h100
    constructor
    · intro h60
      rw [sqrt_lt_sixty_iff] at h60
      rw [mem_windows_iff, mem_doors_iff]
      tauto
    · intro h60
      rw [← not_lt, sqrt_lt_sixty_iff] at h60
      rw [mem_windows_iff, mem_doors_iff]
      tauto
  · intro ls s h
    rw [mem_doors_iff, mem_windows_iff] at h
    tauto

/-- A segment of length exactly 50 (from (0,0) to (50,0)). -/
def s50 : Seg := ⟨0, 0, 50, 0⟩

theorem opening_length_classification_witness :
    s50 ∈ (detect_doors_windows (some [s50])).windows ∧
    s50 ∉ (detect_doors_windows (some [s50])).doors :=
  (opening_length_classification.2.1 [s50] s50 (List.mem_singleton.mpr rfl)
      ((thirty_lt_sqrt_iff s50).mpr (by decide))
      ((sqrt_lt_hundred_iff s50).mpr (by decide))).1
    ((sqrt_lt_sixty_iff s50).mpr (by decide))

theorem mkRoom_id (i : ℕ) (c : Contour) : (mkRoom i c).id = i := rfl

theorem mkRoom_area (i : ℕ) (c : Contour) : (mkRoom i c).area_pixels = pyInt c.area := rfl

theorem mkRoom_type (i : ℕ) (c : Contour) :
    (mkRoom i c).type =
      estimate_room_type c.area ((max c.w c.h : ℚ) / (min c.w c.h : ℚ)) := rfl

theorem mem_detect_roomsAux {m : ℤ} {r : Room} {i : ℕ} {cs : List Contour}
    (h : r ∈ detect_roomsAux m i cs) :
    ∃ j c, r = mkRoom j c ∧ ¬c.area < (m : ℚ) ∧ i ≤ j := by
  induction cs generalizing i with
  | nil => simp [detect_roomsAux] at h
  | cons c cs ih =>
    rw [detect_roomsAux] at h
    split_ifs at h with hc
    · obtain ⟨j, c', hr, hk, hij⟩ := ih h
      exact ⟨j, c', hr, hk, by omega⟩
    · rcases List.mem_cons.mp h with h1 | h1
      · exact ⟨i, c, h1, hc, le_refl i⟩
      · obtain ⟨j, c', hr, hk, hij⟩ := ih h1
        exact ⟨j, c', hr, hk, by omega⟩

theorem detect_roomsAux_map_area (m : ℤ) (i : ℕ) (cs : List Contour) :
    (detect_roomsAux m i cs).map (·.area_pixels) =
      (cs.filter (fun c => !decide (c.area < (m : ℚ)))).map (fun c => pyInt c.area) := by
  induction cs generalizing i with
  | nil => rfl
  | cons c cs ih =>
    rw [detect_roomsAux]
    by_cases hc : c.area < (m : ℚ)
    · rw [if_pos hc, List.filter_cons_of_neg (by simp [hc])]
      exact ih (i + 1)
    · rw [if_neg hc, List.filter_cons_of_pos (by simp [hc])]
      simp only [List.map_cons, mkRoom_area]
      rw [ih (i + 1)]

theorem detect_roomsAux_length (m : ℤ) (i : ℕ) (cs : List Contour) :
    (detect_roomsAux m i cs).length =
      (cs.filter (fun c => !decide (c.area < (m : ℚ)))).length := by
  have h := congrArg List.length (detect_roomsAux_map_area m i cs)
  simpa using h

theorem analyze_floor_plan_ok (m : ℤ) (cv : CVData) (p : Option String) (w : WriteOutcome)
    (res : AnalysisResult) (wr : Option (String × AnnImage))
    (h : analyze_floor_plan m cv p w = .ok (res, wr)) :
    res = { total_rooms := (detect_rooms m cv.contours).length
            total_area_pixels := ((detect_rooms m cv.contours).map (·.area_pixels)).sum
            rooms := (detect_rooms m cv.contours).map roomOut
            doors := (detect_doors_windows cv.lines).doors
            windows := (detect_doors_windows cv.lines).windows
            wall_count := cv.walls.length } := by
  cases p with
  | none =>
    simp only [analyze_floor_plan, Except.ok.injEq, Prod.mk.injEq] at h
    exact h.1.symm
  | some pp =>
    cases w with
    | raiseErr =>
      simp only [analyze_floor_plan] at h
      exact Except.noConfusion h
    | retFalse =>
      simp only [analyze_floor_plan, Except.ok.injEq, Prod.mk.injEq] at h
      exact h.1.symm
    | ok =>
      simp only [analyze_floor_plan, Except.ok.injEq, Prod.mk.injEq] at h
      exact h.1.symm

/-- C8: for every analysis call on a valid image, the returned result has
`total_rooms = len(rooms)` and `total_area_pixels` equal to the sum of the
returned rooms' `area_pixels`; regions discarded by the minimum-room-area
filter contribute to neither total (both totals range over exactly the
contours passing the filter), and every returned room has
`area_pixels ≥ min_room_area`. -/
theorem result_totals_consistent (m : ℤ) (cv : CVData) (p : Option String) (w : WriteOutcome)
    (res : AnalysisResult) (wr : Option (String × AnnImage))
    (h : analyze_floor_plan m cv p w = .ok (res, wr)) :
    res.total_rooms = res.rooms.length ∧
    res.total_area_pixels = (res.rooms.map (·.area_pixels)).sum ∧
    res.total_rooms = (cv.contours.filter (fun c => !decide (c.area < (m : ℚ)))).length ∧
    res.total_area_pixels =
      ((cv.contours.filter (fun c => !decide (c.area < (m : ℚ)))).map (fun c => pyInt c.area)).sum ∧
    ∀ r ∈ res.rooms, m ≤ r.area_pixels := by
  rw [analyze_floor_plan_ok m cv p w res wr h]
  refine ⟨by simp, ?_, ?_, ?_, ?_⟩
  · simp [List.map_map, Function.comp_def, roomOut]
  · exact detect_roomsAux_length m 0 cv.contours
  · rw [detect_rooms, detect_roomsAux_map_area]
  · intro r hr
    simp only [List.mem_map] at hr
    obtain ⟨r0, hr0, rfl⟩ := hr
    obtain ⟨j, c, rfl, hk, -⟩ := mem_detect_roomsAux hr0
    have hle : (m : ℚ) ≤ c.area := not_lt.mp hk
    simpa [roomOut, mkRoom_area] using le_pyInt hle

/-- A contour describing one medium-sized region (area 6000, bounding box
100 × 60, zero moments so the centroid falls back to the box midpoint). -/
def cW : Contour := ⟨6000, 0, 0, 100, 60, 0, 0, 0⟩

/-- A contour below the default minimum room area. -/
def cSmall : Contour := ⟨100, 0, 0, 10, 10, 0, 0, 0⟩

/-- A loaded-image environment with one qualifying contour and one contour
below the minimum area. -/
def exCV : CVData := ⟨0, [], [cW, cSmall], none⟩

/-- The serialized room that `analyze_floor_plan` produces from `cW`. -/
def exRoomOut8 : RoomOut :=
  ⟨0, "storage_or_hallway", 6000, ⟨0, 0, 100, 60⟩, ⟨50, 30⟩, (100 : ℚ) / 60, none⟩

/-- The analysis result over `exCV`. -/
def exRes8 : AnalysisResult := ⟨1, 6000, [exRoomOut8], [], [], 0⟩

theorem exRun8 : analyze_floor_plan 5000 exCV none .ok = .ok (exRes8, none) := rfl

theorem result_totals_consistent_witness :
    exRes8.total_rooms = exRes8.rooms.length ∧
    exRes8.total_area_pixels = (exRes8.rooms.map (·.area_pixels)).sum ∧
    exRes8.total_rooms =
      (exCV.contours.filter (fun c => !decide (c.area < ((5000 : ℤ) : ℚ)))).length ∧
    exRes8.total_area_pixels =
      ((exCV.contours.filter (fun c => !decide (c.area < ((5000 : ℤ) : ℚ)))).map
        (fun c => pyInt c.area)).sum ∧
    (5000 : ℤ) ≤ exRoomOut8.area_pixels := by
  have h := result_totals_consistent 5000 exCV none .ok exRes8 none exRun8
  exact ⟨h.1, h.2.1, h.2.2.1, h.2.2.2.1,
    h.2.2.2.2 exRoomOut8 (List.mem_singleton.mpr rfl)⟩

theorem estimate_storage_area {area ratio : ℚ}
    (h : estimate_room_type area ratio = "storage_or_hallway") : area ≤ 20000 := by
  by_contra hgt
  push_neg at hgt
  unfold estimate_room_type at h
  split_ifs at h <;> first | exact absurd h (by decide) | linarith

/-- C10: every room produced by `detect_rooms` and classified as
`storage_or_hallway` (which the classifier assigns only when area ≤ 20000,
hence below 30000) gets the empty recommendation list: the type has no catalog
entry, so the generic fallback (priority `recommended`) is used, and the
small-room filter keeps only essential-priority items, leaving nothing. -/
theorem storage_room_recommendations_empty (m : ℤ) (cs : List Contour) (r : Room)
    (hr : r ∈ detect_rooms m cs) (ht : r.type = "storage_or_hallway") :
    recommend_furniture r.type r.area_pixels = [] := by
  obtain ⟨j, c, rfl, hk, -⟩ := mem_detect_roomsAux hr
  rw [mkRoom_type] at ht
  have harea : c.area ≤ 20000 := estimate_storage_area ht
  rw [mkRoom_type, ht, mkRoom_area]
  have hpix : pyInt c.area < 30000 :=
    lt_of_le_of_lt (pyInt_le (by exact_mod_cast harea)) (by norm_num)
  have hrec : recommendations "storage_or_hallway" = none := by decide
  unfold recommend_furniture
  rw [hrec]
  unfold area_filter
  rw [if_pos hpix]
  rfl

theorem storage_room_recommendations_empty_witness :
    recommend_furniture (mkRoom 0 cW).type (mkRoom 0 cW).area_pixels = [] :=
  storage_room_recommendations_empty 5000 [cW] (mkRoom 0 cW)
    (List.mem_singleton.mpr rfl) rfl

theorem roomOut_id (r : Room) : (roomOut r).id = r.id := rfl

theorem roomOut_type (r : Room) : (roomOut r).type = r.type := rfl

theorem roomOut_area (r : Room) : (roomOut r).area_pixels = r.area_pixels := rfl

/-- C2 counterexample: at a concrete input, a visualization write step that
raises makes the whole analysis return an error instead of the structural
result — the failure does propagate. -/
theorem vis_write_raise_propagates :
    analyze_floor_plan 5000 exCV (some "out.jpg") .raiseErr = .error .visWriteRaised := rfl

/-- C2 (amended): a visualization write failure that raises an exception
propagates out of `analyze_floor_plan` (nothing catches it); only a failure
signalled by `imwrite`'s `False` return value — which the code ignores — is
swallowed: whenever the write step does not raise, the analysis succeeds and
the structural result equals the result of the same analysis with no output
path. -/
theorem vis_write_nonraising_preserves_result (m : ℤ) (cv : CVData) (p : String)
    (w : WriteOutcome) (hw : w ≠ .raiseErr) :
    (analyze_floor_plan m cv (some p) w).map Prod.fst =
      (analyze_floor_plan m cv none w).map Prod.fst ∧
    (analyze_floor_plan m cv (some p) w).isOk = true := by
  cases w with
  | raiseErr => exact absurd rfl hw
  | retFalse => exact ⟨rfl, rfl⟩
  | ok => exact ⟨rfl, rfl⟩

theorem vis_write_nonraising_preserves_result_witness :
    ((analyze_floor_plan 5000 exCV (some "out.jpg") .retFalse).map Prod.fst =
      (analyze_floor_plan 5000 exCV none .retFalse).map Prod.fst) ∧
    (analyze_floor_plan 5000 exCV (some "out.jpg") .retFalse).isOk = true :=
  vis_write_nonraising_preserves_result 5000 exCV "out.jpg" .retFalse (by decide)

/-- C9: when the visualization write succeeds, analyzing with an output path
writes the annotated image (rendered from the detected rooms and openings, on
a copy of the original image) at that path, and the returned structural result
is identical to the result of analyzing the same image with no output path:
the visualization step reads but never modifies the image or the detected
room/opening data the result is built from. -/
theorem visualization_roundtrip (m : ℤ) (cv : CVData) (p : String) :
    analyze_floor_plan m cv (some p) .ok =
      (analyze_floor_plan m cv none .ok).map
        (fun rw =>
          (rw.1,
           some (p, visualize_analysis cv.image (detect_rooms m cv.contours)
             (detect_doors_windows cv.lines)))) ∧
    (analyze_floor_plan m cv (some p) .ok).isOk = true :=
  ⟨rfl, rfl⟩

/-- An `analyze_floor_plan_bytes` environment whose final `unlink` raises. -/
def envLeak : BytesEnv := ⟨true, exCV, exCV, false, .ok, true⟩

/-- An `analyze_floor_plan_bytes` environment where the scratch write and the
final `unlink` both succeed. -/
def envClean : BytesEnv := ⟨true, exCV, exCV, false, .ok, false⟩

/-- C3 counterexample: at a concrete input the call returns successfully yet
the temporary scratch file still exists — the `finally` block's
`except Exception: pass` swallowed the failed deletion. -/
theorem temp_file_leak_on_unlink_failure :
    (analyze_floor_plan_bytes envLeak none).2 = true ∧
    (analyze_floor_plan_bytes envLeak none).1.isOk = true :=
  ⟨rfl, rfl⟩

/-- C3 (amended): the temporary scratch file is deleted before the call
returns on every exit path — success or exception — provided the initial
scratch `imwrite` does not raise and the deletion call itself succeeds; a
raising scratch write (before the `try`) or a failing `unlink` (whose error is
silently swallowed) leaks the file. -/
theorem temp_file_deleted_when_unlink_succeeds (env : BytesEnv) (p : Option String)
    (h1 : env.tempWriteRaises = false) (h2 : env.unlinkRaises = false) :
    (analyze_floor_plan_bytes env p).2 = false := by
  unfold analyze_floor_plan_bytes
  by_cases hd : env.decoded
  · simp [hd, h1, h2]
  · simp [hd]

theorem temp_file_deleted_when_unlink_succeeds_witness :
    (analyze_floor_plan_bytes envClean none).2 = false :=
  temp_file_deleted_when_unlink_succeeds envClean none rfl rfl

/-- C1 counterexample: a concrete successful `analyze_floor_plan` call (file
path entry point) returns its room without any `furniture_recommendations`
attached — the path entry point never invokes the Recommendation Engine. -/
theorem path_analysis_lacks_recommendations :
    (analyze_floor_plan 5000 exCV none .ok).toOption.map
      (fun rw => rw.1.rooms.map (·.furniture_recommendations)) = some [none] := rfl

theorem detect_roomsAux_id_lb {m : ℤ} {i : ℕ} {cs : List Contour} {r : Room}
    (h : r ∈ detect_roomsAux m i cs) : i ≤ r.id := by
  obtain ⟨j, c, rfl, -, hij⟩ := mem_detect_roomsAux h
  simpa [mkRoom_id] using hij

theorem detect_roomsAux_find_id {m : ℤ} {r : Room} {i : ℕ} {cs : List Contour}
    (h : r ∈ detect_roomsAux m i cs) :
    (detect_roomsAux m i cs).find? (fun r' => r'.id == r.id) = some r := by
  induction cs generalizing i with
  | nil => simp [detect_roomsAux] at h
  | cons c cs ih =>
    rw [detect_roomsAux] at h ⊢
    split_ifs at h ⊢ with hc
    · exact ih h
    · rcases List.mem_cons.mp h with h1 | h1
      · subst h1
        exact List.find?_cons_of_pos _ (by simp)
      · have hlb : i + 1 ≤ r.id := detect_roomsAux_id_lb h1
        rw [List.find?_cons_of_neg _ (by simp [mkRoom_id]; omega)]
        exact ih h1

/-- C1 (amended): only `analyze_floor_plan_bytes` attaches furniture
recommendations (the path entry point `analyze_floor_plan` returns rooms
without them), and it attaches them to a room only when the room's id matches
one of the rooms detected from the directly decoded image.  Whenever the
temp-file reload yields the same contours as the direct decode, every room of
a successful result carries `furniture_recommendations` computed by
`recommend_furniture` from that room's type and `area_pixels`. -/
theorem bytes_rooms_have_recommendations (env : BytesEnv) (p : Option String)
    (res : AnalysisResult) (wr : Option (String × AnnImage)) (leak : Bool)
    (hagree : env.cvReload.contours = env.cvDirect.contours)
    (h : analyze_floor_plan_bytes env p = (.ok (res, wr), leak)) :
    ∀ room ∈ res.rooms,
      room.furniture_recommendations =
        some (recommend_furniture room.type room.area_pixels) := by
  unfold analyze_floor_plan_bytes at h
  by_cases hd : env.decoded
  case neg => simp [hd] at h
  by_cases htw : env.tempWriteRaises
  case pos => simp [hd, htw] at h
  rw [if_neg (by simp [hd]), if_neg htw] at h
  simp only [Prod.mk.injEq] at h
  obtain ⟨hbody, hleak⟩ := h
  cases hA : analyze_floor_plan 5000 env.cvReload p env.visWrite with
  | error e =>
    rw [hA] at hbody
    simp [Except.map] at hbody
  | ok rw0 =>
    obtain ⟨res0, wr0⟩ := rw0
    rw [hA] at hbody
    simp only [Except.map, Except.ok.injEq, Prod.mk.injEq] at hbody
    obtain ⟨hres, hwr⟩ := hbody
    subst hres
    have hre := analyze_floor_plan_ok 5000 env.cvReload p env.visWrite res0 wr0 hA
    have hrooms : res0.rooms = (detect_rooms 5000 env.cvReload.contours).map roomOut := by
      rw [hre]
    intro room hroom
    have hroom' : room ∈ res0.rooms.map
        (attach_recommendations (detect_rooms 5000 env.cvDirect.contours)) := hroom
    rw [hrooms, List.map_map] at hroom'
    simp only [List.mem_map, Function.comp] at hroom'
    obtain ⟨r0, hr0, rfl⟩ := hroom'
    rw [hagree] at hr0
    have hfind : (detect_rooms 5000 env.cvDirect.contours).find?
        (fun r' => r'.id == r0.id) = some r0 := detect_roomsAux_find_id hr0
    show (attach_recommendations (detect_rooms 5000 env.cvDirect.contours)
      (roomOut r0)).furniture_recommendations = _
    unfold attach_recommendations
    have hfind' : (detect_rooms 5000 env.cvDirect.contours).find?
        (fun r' => r'.id == (roomOut r0).id) = some r0 := hfind
    rw [hfind']
    rfl

/-- The room returned by `analyze_floor_plan_bytes` over `envClean`, with its
attached (empty, small storage room) recommendation list. -/
def exRoomOutRec : RoomOut :=
  ⟨0, "storage_or_hallway", 6000, ⟨0, 0, 100, 60⟩, ⟨50, 30⟩, (100 : ℚ) / 60, some []⟩

/-- The bytes-path analysis result over `envClean`. -/
def exResRec : AnalysisResult := ⟨1, 6000, [exRoomOutRec], [], [], 0⟩

theorem bytes_rooms_have_recommendations_witness :
    exRoomOutRec.furniture_recommendations =
      some (recommend_furniture exRoomOutRec.type exRoomOutRec.area_pixels) :=
  bytes_rooms_have_recommendations envClean none exResRec none false rfl rfl
    exRoomOutRec (List.mem_singleton.mpr rfl)
